import Mathlib

/-!
Verification of the `ros_interface_mpc` MPC subscriber node
(`scripts/subscriber_go2.py`): a shallow embedding of the node's state, its
command-delivery callback (`listener_callback`), its periodic control tick
(`timer_callback`) and the state-publishing helper (`set_messages`), with the
physics plant (`Simulation`) and the inverse-dynamics QP (`IDSolver.solve_qp`)
kept as function parameters, since they are external collaborators.

Scalars are modelled as exact rationals; the Go2 model dimensions fixed by
`loadGo2` are nq = 19 (3 base translation + 4 base quaternion (x, y, z, w) +
12 actuated joints, visible in the literal `q0` of the source), nv = 18,
nu = nv - 6 = 12, ndx = 2 * nv = 36.
-/

/-- Vector difference, componentwise (numpy `a - b` on equal-length vectors). -/
def vsub (a b : List ℚ) : List ℚ := List.zipWith (fun x y => x - y) a b

/-- Dot product of two vectors (numpy row-vector product). -/
def dot (a b : List ℚ) : ℚ := (List.zipWith (fun x y => x * y) a b).sum

/-- Matrix-vector product: a matrix is a list of rows (numpy `M @ v`). -/
def matVec (M : List (List ℚ)) (v : List ℚ) : List ℚ := M.map (fun row => dot row v)

/-- Scaled identity matrix `np.identity n * g` (rows of a diagonal matrix). -/
def diagMat (n : Nat) (g : ℚ) : List (List ℚ) :=
  (List.range n).map (fun i => (List.range n).map (fun j => if i = j then g else 0))

/-- Quaternion with components in the pinocchio storage order x, y, z, w. -/
structure Quat where
  x : ℚ
  y : ℚ
  z : ℚ
  w : ℚ
deriving DecidableEq

/-- Quaternion conjugate. -/
def qconj (q : Quat) : Quat := ⟨-q.x, -q.y, -q.z, q.w⟩

/-- Hamilton product of two quaternions. -/
def qmul (a b : Quat) : Quat :=
  ⟨a.w * b.x + a.x * b.w + a.y * b.z - a.z * b.y,
   a.w * b.y - a.x * b.z + a.y * b.w + a.z * b.x,
   a.w * b.z + a.x * b.y - a.y * b.x + a.z * b.w,
   a.w * b.w - a.x * b.x - a.y * b.y - a.z * b.z⟩

/-- Quaternion read out of a state vector: entries 3..6 of the configuration,
stored x, y, z, w as in pinocchio (the source `q0` literal ends its base pose
with `0, 0, 0, 1`). -/
def quatAt (l : List ℚ) : Quat := ⟨l.getD 3 0, l.getD 4 0, l.getD 5 0, l.getD 6 0⟩

/-- Modelled from the spec: the rotational part of the configuration-manifold
log map used by the external manifold difference operator
(`proxsuite_nlp.manifolds.MultibodyPhaseSpace.difference`, not part of this
repository). Faithful to the spec's words: the base orientation is differenced
as a rotation-group element (geodesic / log-map difference), which factors
through the rotation represented by the relative quaternion
`r = conj q1 * q2` and is therefore invariant under a sign flip of either
quaternion (double cover). The log of that rotation is the skew part
`vee (R - transpose R) = 4 * r.w * (r.x, r.y, r.z)` of the rotation matrix
(normalised by the squared quaternion norm `n`), rescaled by a transcendental
angle factor that depends only on `cos² (θ/2) = r.w² / n`; that factor is not
expressible in exact rational arithmetic and is passed as the parameter
`scale`. The skew part vanishes exactly at the identity rotation, so every
statement proved below holds for every choice of `scale`. -/
def rotLogDiff (scale : ℚ → ℚ) (q1 q2 : Quat) : List ℚ :=
  let r := qmul (qconj q1) q2
  let n := r.x * r.x + r.y * r.y + r.z * r.z + r.w * r.w
  let c := scale (r.w * r.w / n)
  [c * (4 * r.w * r.x / n), c * (4 * r.w * r.y / n), c * (4 * r.w * r.z / n)]

/-- Modelled from the spec: the manifold-aware state difference
`space.difference x1 x2` of the multibody phase space (external to this
repository; the source builds `self.space = manifolds.MultibodyPhaseSpace(...)`
and calls `self.space.difference(x_measured, self.x0)`). Per the spec it
subtracts the base pose through the configuration-manifold log map (rotational
part `rotLogDiff`, translational part the vector difference), and subtracts
the actuated joint configurations and all velocities by ordinary vector
difference. The result is the tangent vector from `x1` to `x2`, of dimension
ndx = 36 on well-formed inputs (length nq + nv = 37). -/
def spaceDifference (scale : ℚ → ℚ) (x1 x2 : List ℚ) : List ℚ :=
  vsub (x2.take 3) (x1.take 3)
    ++ rotLogDiff scale (quatAt x1) (quatAt x2)
    ++ vsub ((x2.drop 7).take 12) ((x1.drop 7).take 12)
    ++ vsub (x2.drop 19) (x1.drop 19)

/-- An inbound `Torque` command message: fields read by `listener_callback`. -/
structure Msg where
  u0 : List ℚ
  x0 : List ℚ
  riccati : List ℚ
  contact_states : List Bool
  forces : List ℚ
  a0 : List ℚ

/-- The mutable state of the `MpcSubscriber` node: its Python attributes,
plus the plant state `sim` (the node owns the `Simulation` object, read by
`get_state()` and advanced by `execute`), plus the last published message
contents (`measure`, `robot_state` and the odometry transform). -/
structure MpcSubscriber where
  parameter : String
  start_mpc : Bool
  x0 : List ℚ
  u0 : List ℚ
  K0 : List (List ℚ)
  Kp : List (List ℚ)
  Kd : List (List ℚ)
  current_torque : List ℚ
  torque_simu : List ℚ
  contact_states : List Bool
  forces : List ℚ
  a0 : List ℚ
  WB_solver : Option Unit
  sim : List ℚ × List ℚ
  measure_position : List ℚ
  measure_velocity : List ℚ
  robot_state_position : List ℚ
  robot_state_velocity : List ℚ
  robot_state_transform : List ℚ
  robot_state_twist : List ℚ
  odom_trans : List ℚ

/-- The `set_messages(q_current, v_current)` helper: writes the 12 actuated
joint positions `q[7+i]` and velocities `v[6+i]` into the joint-state and
robot-state messages (the `controlled_joint_ids` list is the identity
permutation), the world→base transform (translation `q[0:3]`, quaternion
`q[3:7]`) into both the odometry transform and the robot-state message, and
the base twist `v[0:6]` into the robot-state message. -/
def set_messages (q v : List ℚ) (s : MpcSubscriber) : MpcSubscriber :=
  { s with
    measure_position := (q.drop 7).take 12
    measure_velocity := (v.drop 6).take 12
    robot_state_position := (q.drop 7).take 12
    robot_state_velocity := (v.drop 6).take 12
    robot_state_transform := q.take 7
    robot_state_twist := v.take 6
    odom_trans := q.take 7 }

/-- The feedforward torque literal of `__init__`: gravity-compensating torque
in half-sitting (the construction-time value of `self.u0`). -/
def u0_default : List ℚ :=
  [-3.71, -1.81, 5.25,
   3.14, -1.37, 5.54,
   -1.39, -1.09, 3.36,
   1.95, -0.61, 3.61]

/-- Construction (`MpcSubscriber.__init__`): `start_mpc` false, `x0` the
initial plant state `concatenate (q_current, v_current)`, `u0` the
gravity-compensation literal, `K0` the nu × ndx zero matrix, `Kp = 100 I`,
`Kd = I`, zero torque buffers, `WB_solver` built only in kinodynamics mode,
and the state messages filled from the initial plant state via
`set_messages`. The initial plant state returned by
`self.wrapper.simulator.get_state()` is a parameter, the node's `mpc_type`
parameter value is `param`. -/
def initNode (param : String) (q_init v_init : List ℚ) : MpcSubscriber :=
  set_messages q_init v_init
    { parameter := param
      start_mpc := false
      x0 := q_init ++ v_init
      u0 := u0_default
      K0 := List.replicate 12 (List.replicate 36 0)
      Kp := diagMat 12 100
      Kd := diagMat 12 1
      current_torque := List.replicate 12 0
      torque_simu := List.replicate 18 0
      contact_states := []
      forces := []
      a0 := []
      WB_solver := if param == "kinodynamics" then some () else none
      sim := (q_init, v_init)
      measure_position := List.replicate 12 0
      measure_velocity := List.replicate 12 0
      robot_state_position := List.replicate 12 0
      robot_state_velocity := List.replicate 12 0
      robot_state_transform := List.replicate 7 0
      robot_state_twist := List.replicate 6 0
      odom_trans := List.replicate 7 0 }

/-- Reshape of the flattened riccati field into the nu × ndx = 12 × 36 gain
matrix (`np.array(msg.riccati.tolist()).reshape((self.nu, self.ndx))`); only
meaningful when the flat length is exactly 432. -/
def reshapeRiccati (l : List ℚ) : List (List ℚ) :=
  (List.range 12).map (fun i => (l.drop (36 * i)).take 36)

/-- The `listener_callback(msg)` of the node, embedded with numpy's reshape
failure made explicit: in fulldynamics mode the handler first assigns
`self.u0` and `self.x0`, then reshapes the riccati field — if the flat length
is not nu * ndx = 432 the reshape raises `ValueError` and the callback
terminates there, leaving `u0`/`x0` already overwritten and `K0` and
`start_mpc` untouched (the returned state is the node state at the point of
the raise). In kinodynamics mode it stores the contact states, forces and
reference accelerations. Any completed run ends by setting `start_mpc`. -/
def listener_callback (msg : Msg) (s : MpcSubscriber) : MpcSubscriber :=
  if s.parameter == "fulldynamics" then
    let s1 := { s with u0 := msg.u0, x0 := msg.x0 }
    if msg.riccati.length = 432 then
      { s1 with K0 := reshapeRiccati msg.riccati, start_mpc := true }
    else
      s1
  else if s.parameter == "kinodynamics" then
    { s with
      contact_states := msg.contact_states
      forces := msg.forces
      a0 := msg.a0
      start_mpc := true }
  else
    { s with start_mpc := true }

/-- Delivery of `msg` to node `s` completes without raising: in fulldynamics
mode the riccati field must reshape to 12 × 36. -/
def deliverOk (msg : Msg) (s : MpcSubscriber) : Prop :=
  s.parameter = "fulldynamics" → msg.riccati.length = 432

instance (msg : Msg) (s : MpcSubscriber) : Decidable (deliverOk msg s) := by
  unfold deliverOk; infer_instance

/-- The torque synthesis of `timer_callback`, as a function of the state
`(q, v)` read at the start of the tick: the Stabilizing joint-space PD law
while `start_mpc` is false (`u0 - Kp @ (q[7:] - x0[7:nq]) - Kd @ v[6:]`),
then per configured mode the fulldynamics feedback law
`u0 - K0 @ space.difference(x_measured, x0)` with
`x_measured = concatenate (q, v)`, or the kinodynamics QP torque
`WB_solver.solve_qp(...)/solved_torque` (the QP solver, an external
collaborator, is the parameter `qp`, fed the current plant state, contact
states, reference accelerations and forces); if no branch applies
`current_torque` is left as it was. -/
def compute_torque (scale : ℚ → ℚ)
    (qp : List ℚ → List ℚ → List Bool → List ℚ → List ℚ → List ℚ)
    (s : MpcSubscriber) (q v : List ℚ) : List ℚ :=
  if s.start_mpc = false then
    vsub (vsub s.u0 (matVec s.Kp (vsub (q.drop 7) ((s.x0.take 19).drop 7))))
      (matVec s.Kd (v.drop 6))
  else if s.parameter == "fulldynamics" then
    vsub s.u0 (matVec s.K0 (spaceDifference scale (q ++ v) s.x0))
  else if s.parameter == "kinodynamics" then
    qp q v s.contact_states s.a0 s.forces
  else
    s.current_torque

/-- The periodic `timer_callback` of the node: read the plant state
`(q, v) = get_state()`, synthesize the torque from it, write it into the
actuated entries of `torque_simu` (entries 0..5 keep their value, zero since
construction), advance the plant one simulation step
(`simulator.execute(torque_simu)`, the integrator being the external
parameter `step`), and publish the state messages built by
`set_messages(q, v)` from the state read at the start of the tick. -/
def timer_callback (scale : ℚ → ℚ)
    (qp : List ℚ → List ℚ → List Bool → List ℚ → List ℚ → List ℚ)
    (step : List ℚ × List ℚ → List ℚ → List ℚ × List ℚ)
    (s : MpcSubscriber) : MpcSubscriber :=
  let q := s.sim.1
  let v := s.sim.2
  let torque := compute_torque scale qp s q v
  let ts := s.torque_simu.take 6 ++ torque
  set_messages q v
    { s with
      current_torque := torque
      torque_simu := ts
      sim := step (q, v) ts }

/-- An event in the node's lifetime: a timer tick (with its external
integrator and QP collaborators) or the delivery of a command message. -/
inductive Event where
  | tick (scale : ℚ → ℚ)
      (qp : List ℚ → List ℚ → List Bool → List ℚ → List ℚ → List ℚ)
      (step : List ℚ × List ℚ → List ℚ → List ℚ × List ℚ) : Event
  | deliver (msg : Msg) : Event

/-- Apply one event to the node state. -/
def applyEvent (e : Event) (s : MpcSubscriber) : MpcSubscriber :=
  match e with
  | Event.tick scale qp step => timer_callback scale qp step s
  | Event.deliver msg => listener_callback msg s

/-- Run a sequence of events from a node state. -/
def run (evs : List Event) (s : MpcSubscriber) : MpcSubscriber :=
  evs.foldl (fun t e => applyEvent e t) s

/-- The messages delivered during an event sequence. -/
def deliveries (evs : List Event) : List Msg :=
  evs.filterMap (fun e => match e with
    | Event.deliver msg => some msg
    | _ => none)

/-- The initial configuration `q0` of the simulation (source literal): base
at height 0.335 with identity orientation, legs in half-sitting. -/
def q0_sim : List ℚ :=
  [0, 0, 0.335, 0, 0, 0, 1,
   0.068, 0.785, -1.440,
   -0.068, 0.785, -1.440,
   0.068, 0.785, -1.440,
   -0.068, 0.785, -1.440]

/-! Helper lemmas about the vector operations. -/

/-- Subtracting a vector from itself gives the zero vector. -/
theorem vsub_self_eq (l : List ℚ) : vsub l l = List.replicate l.length 0 := by
  induction l with
  | nil => rfl
  | cons a t ih =>
    show (a - a) :: vsub t t = 0 :: List.replicate t.length 0
    rw [sub_self, ih]

/-- Dot product with a zero vector is zero, whatever the lengths. -/
theorem dot_replicate_zero (l : List ℚ) (k : Nat) : dot l (List.replicate k 0) = 0 := by
  induction l generalizing k with
  | nil => rfl
  | cons a t ih =>
    cases k with
    | zero => rfl
    | succ m =>
      show a * 0 + dot t (List.replicate m 0) = 0
      rw [mul_zero, ih m, add_zero]

/-- Matrix product with a zero vector is a zero vector of one entry per row. -/
theorem matVec_replicate_zero (M : List (List ℚ)) (k : Nat) :
    matVec M (List.replicate k 0) = List.replicate M.length 0 := by
  induction M with
  | nil => rfl
  | cons r t ih =>
    show dot r (List.replicate k 0) :: matVec t (List.replicate k 0)
      = 0 :: List.replicate t.length 0
    rw [dot_replicate_zero, ih]

/-- Subtracting a zero vector at least as long as `l` leaves `l` unchanged. -/
theorem vsub_replicate_zero (l : List ℚ) (n : Nat) (h : l.length ≤ n) :
    vsub l (List.replicate n 0) = l := by
  induction l generalizing n with
  | nil => rfl
  | cons a t ih =>
    cases n with
    | zero => exact absurd h (by simp)
    | succ m =>
      show (a - 0) :: vsub t (List.replicate m 0) = a :: t
      rw [sub_zero, ih m (by simpa using h)]

/-- The number of rows of `diagMat n g` is `n`. -/
theorem diagMat_length (n : Nat) (g : ℚ) : (diagMat n g).length = n := by
  simp [diagMat]

/-- C1. In Tracking state with the fulldynamics control law, the torque the
tick computes from the measured state `(q, v)` read at its start and the
stored command `(u0, x0, K0)` is `u0 - K0 @ Δ(x_measured, x0)`, where
`x_measured = q ++ v` and `Δ` is the manifold-aware state difference of the
multibody phase space (`spaceDifference`, log map on the base pose, ordinary
vector difference on the velocities), not component-wise subtraction. -/
theorem C1_fulldynamics_tracking_law (scale : ℚ → ℚ)
    (qp : List ℚ → List ℚ → List Bool → List ℚ → List ℚ → List ℚ)
    (step : List ℚ × List ℚ → List ℚ → List ℚ × List ℚ)
    (s : MpcSubscriber) (hm : s.start_mpc = true) (hp : s.parameter = "fulldynamics") :
    (timer_callback scale qp step s).current_torque
      = vsub s.u0 (matVec s.K0 (spaceDifference scale (s.sim.1 ++ s.sim.2) s.x0)) := by
  simp [timer_callback, set_messages, compute_torque, hm, hp]

/-- Fixed external collaborators used by the concrete witnesses: a constant
angle-rescaling factor, a zero-torque QP solver, an identity integrator. -/
def sc1 : ℚ → ℚ := fun _ => 1

/-- Zero-torque QP solver stub used by the concrete witnesses. -/
def qp0 : List ℚ → List ℚ → List Bool → List ℚ → List ℚ → List ℚ :=
  fun _ _ _ _ _ => List.replicate 12 0

/-- Identity integrator stub used by the concrete witnesses. -/
def step0 : List ℚ × List ℚ → List ℚ → List ℚ × List ℚ := fun st _ => st

/-- A node in Tracking state with the fulldynamics law, at the initial
simulation state. -/
def nodeTrack : MpcSubscriber :=
  { initNode "fulldynamics" q0_sim (List.replicate 18 0) with start_mpc := true }

/-- Witness for C1: the tracking law hypotheses hold and the law evaluates at
the concrete node `nodeTrack`. -/
theorem C1_fulldynamics_tracking_law_witness :
    nodeTrack.start_mpc = true ∧ nodeTrack.parameter = "fulldynamics" ∧
      (timer_callback sc1 qp0 step0 nodeTrack).current_torque
        = vsub nodeTrack.u0
            (matVec nodeTrack.K0 (spaceDifference sc1 (nodeTrack.sim.1 ++ nodeTrack.sim.2) nodeTrack.x0)) :=
  ⟨rfl, rfl, C1_fulldynamics_tracking_law sc1 qp0 step0 nodeTrack rfl rfl⟩

/-- C2. In Stabilizing state (ControlModeFlag `start_mpc` still false) the
tick computes `u0 - Kp @ (q[7:] - x0[7:19]) - Kd @ v[6:]` from the actuated
entries only (q from index 7, v from index 6), ignoring the base pose; and at
a freshly constructed node (so `u0 = u0_default`, `x0 = q_init ++ 0`,
`Kp = 100 I`, `Kd = I`, with nq = 19, nv = 18, nu = 12) whose measured state
is the nominal configuration with zero velocity, the output is exactly
`u0_default`. -/
theorem C2_stabilizing_pd_law :
    (∀ (scale : ℚ → ℚ) (qp : List ℚ → List ℚ → List Bool → List ℚ → List ℚ → List ℚ)
        (step : List ℚ × List ℚ → List ℚ → List ℚ × List ℚ) (s : MpcSubscriber),
      s.start_mpc = false →
        (timer_callback scale qp step s).current_torque
          = vsub (vsub s.u0 (matVec s.Kp (vsub (s.sim.1.drop 7) ((s.x0.take 19).drop 7))))
              (matVec s.Kd (s.sim.2.drop 6)))
    ∧ (∀ (scale : ℚ → ℚ) (qp : List ℚ → List ℚ → List Bool → List ℚ → List ℚ → List ℚ)
        (step : List ℚ × List ℚ → List ℚ → List ℚ × List ℚ) (p : String) (q_init : List ℚ),
      q_init.length = 19 →
        (timer_callback scale qp step (initNode p q_init (List.replicate 18 0))).current_torque
          = u0_default) := by
  constructor
  · intro scale qp step s hm
    simp [timer_callback, set_messages, compute_torque, hm]
  · intro scale qp step p q_init hq
    have hmain : (initNode p q_init (List.replicate 18 0)).start_mpc = false := rfl
    simp only [timer_callback, set_messages, compute_torque, hmain, if_pos rfl]
    have hx0 : (initNode p q_init (List.replicate 18 0)).x0 = q_init ++ List.replicate 18 0 := rfl
    have hsim : (initNode p q_init (List.replicate 18 0)).sim = (q_init, List.replicate 18 0) := rfl
    have hu : (initNode p q_init (List.replicate 18 0)).u0 = u0_default := rfl
    have hKp : (initNode p q_init (List.replicate 18 0)).Kp = diagMat 12 100 := rfl
    have hKd : (initNode p q_init (List.replicate 18 0)).Kd = diagMat 12 1 := rfl
    rw [hx0, hsim, hu, hKp, hKd]
    rw [List.take_left' hq]
    rw [vsub_self_eq, matVec_replicate_zero, diagMat_length]
    rw [show List.drop 6 (List.replicate 18 (0:ℚ)) = List.replicate 12 0 by
      simp [List.drop_replicate]]
    rw [matVec_replicate_zero, diagMat_length]
    rw [vsub_replicate_zero u0_default 12 (by rfl)]
    rw [vsub_replicate_zero u0_default 12 (by rfl)]
    simp

/-- Witness for C2: both conjuncts evaluated at the concrete initial node
(nominal configuration, zero velocity), where the output is `u0_default`. -/
theorem C2_stabilizing_pd_law_witness :
    (initNode "fulldynamics" q0_sim (List.replicate 18 0)).start_mpc = false ∧
      q0_sim.length = 19 ∧
      (timer_callback sc1 qp0 step0 (initNode "fulldynamics" q0_sim (List.replicate 18 0))).current_torque
        = u0_default :=
  ⟨rfl, rfl, C2_stabilizing_pd_law.2 sc1 qp0 step0 "fulldynamics" q0_sim rfl⟩

/-- The initial node used by several concrete statements: fulldynamics mode,
at the source's initial configuration with zero velocity. -/
def node0 : MpcSubscriber := initNode "fulldynamics" q0_sim (List.replicate 18 0)

/-- A configuration that differs from `q0_sim` in the first actuated joint. -/
def q_alt : List ℚ :=
  [0, 0, 0.335, 0, 0, 0, 1,
   0.168, 0.785, -1.440,
   -0.068, 0.785, -1.440,
   0.068, 0.785, -1.440,
   -0.068, 0.785, -1.440]

/-- An integrator stub whose step moves the plant to `(q_alt, 0)`: the plant
state genuinely changes across the simulation step. -/
def step_alt : List ℚ × List ℚ → List ℚ → List ℚ × List ℚ :=
  fun _ _ => (q_alt, List.replicate 18 0)

/-- Counterexample to C3 as stated: on a tick whose simulation step moves the
plant, the published joint positions are not the post-step state's joint
positions (the code publishes the state read at the start of the tick; it
never re-reads the plant after `execute`). -/
theorem C3_prestep_publish_counterexample :
    (timer_callback sc1 qp0 step_alt node0).measure_position
        ≠ (((timer_callback sc1 qp0 step_alt node0).sim.1).drop 7).take 12
      ∧ (timer_callback sc1 qp0 step_alt node0).measure_position
        = ((node0.sim.1).drop 7).take 12 := by
  with_unfolding_all decide

/-- C3 amended: every tick performs, in order: read the state `(q, v)` from
the plant, synthesize the torque from that state and the stored command,
write it into the actuated entries of the torque buffer, apply it to the
plant and advance the plant one simulation step, and publish the state read
at the START of the tick (joint positions and velocities, the full robot
state, and the world→base transform derived from the configuration's base
pose) — the post-step state is not re-read; it is observed by the next
tick. -/
theorem C3_tick_order_prestep_publish (scale : ℚ → ℚ)
    (qp : List ℚ → List ℚ → List Bool → List ℚ → List ℚ → List ℚ)
    (step : List ℚ × List ℚ → List ℚ → List ℚ × List ℚ) (s : MpcSubscriber) :
    (timer_callback scale qp step s).current_torque = compute_torque scale qp s s.sim.1 s.sim.2
      ∧ (timer_callback scale qp step s).torque_simu
        = s.torque_simu.take 6 ++ compute_torque scale qp s s.sim.1 s.sim.2
      ∧ (timer_callback scale qp step s).sim
        = step (s.sim.1, s.sim.2) (s.torque_simu.take 6 ++ compute_torque scale qp s s.sim.1 s.sim.2)
      ∧ (timer_callback scale qp step s).measure_position = ((s.sim.1).drop 7).take 12
      ∧ (timer_callback scale qp step s).measure_velocity = ((s.sim.2).drop 6).take 12
      ∧ (timer_callback scale qp step s).robot_state_position = ((s.sim.1).drop 7).take 12
      ∧ (timer_callback scale qp step s).robot_state_velocity = ((s.sim.2).drop 6).take 12
      ∧ (timer_callback scale qp step s).robot_state_transform = (s.sim.1).take 7
      ∧ (timer_callback scale qp step s).robot_state_twist = (s.sim.2).take 6
      ∧ (timer_callback scale qp step s).odom_trans = (s.sim.1).take 7 :=
  ⟨rfl, rfl, rfl, rfl, rfl, rfl, rfl, rfl, rfl, rfl⟩

/-- C4. ControlModeFlag (`start_mpc`): false at construction; set true by the
delivery of any command whose delivery completes (`deliverOk`); and monotone,
no sequence of subsequent timer ticks and command deliveries (completed or
raising) ever returns it to false. -/
theorem C4_start_mpc_monotone :
    (∀ (p : String) (q_init v_init : List ℚ), (initNode p q_init v_init).start_mpc = false)
      ∧ (∀ (msg : Msg) (s : MpcSubscriber), deliverOk msg s →
          (listener_callback msg s).start_mpc = true)
      ∧ (∀ (evs : List Event) (s : MpcSubscriber), s.start_mpc = true →
          (run evs s).start_mpc = true) := by
  refine ⟨fun p qi vi => rfl, ?_, ?_⟩
  · intro msg s hok
    unfold listener_callback deliverOk at *
    by_cases hf : s.parameter = "fulldynamics"
    · rw [if_pos (by simp [hf]), if_pos (hok hf)]
    · rw [if_neg (by simp [hf])]
      by_cases hk : s.parameter = "kinodynamics"
      · rw [if_pos (by simp [hk])]
      · rw [if_neg (by simp [hk])]
  · intro evs
    induction evs with
    | nil => intro s h; exact h
    | cons e t ih =>
      intro s h
      refine ih (applyEvent e s) ?_
      cases e with
      | tick scale qp step => simpa [applyEvent, timer_callback, set_messages] using h
      | deliver msg =>
        simp only [applyEvent, listener_callback]
        by_cases hf : (s.parameter == "fulldynamics") = true
        · rw [if_pos hf]
          by_cases hr : msg.riccati.length = 432
          · rw [if_pos hr]
          · rw [if_neg hr]; exact h
        · rw [if_neg hf]
          by_cases hk : (s.parameter == "kinodynamics") = true
          · rw [if_pos hk]
          · rw [if_neg hk]

/-- A well-formed fulldynamics command message. -/
def msg_good : Msg :=
  { u0 := List.replicate 12 0
    x0 := List.replicate 37 1
    riccati := List.replicate 432 0
    contact_states := []
    forces := []
    a0 := [] }

/-- Witness for C4: at the concrete initial node the flag is false, the
delivery of the concrete well-formed message completes and sets it, and it
stays true across a subsequent tick-and-delivery sequence. -/
theorem C4_start_mpc_monotone_witness :
    (initNode "fulldynamics" q0_sim (List.replicate 18 0)).start_mpc = false
      ∧ deliverOk msg_good node0
      ∧ (listener_callback msg_good node0).start_mpc = true
      ∧ (run [Event.tick sc1 qp0 step0, Event.deliver msg_good, Event.tick sc1 qp0 step0]
          (listener_callback msg_good node0)).start_mpc = true := by
  have hok : deliverOk msg_good node0 := fun _ => List.length_replicate 432 0
  have hset : (listener_callback msg_good node0).start_mpc = true :=
    C4_start_mpc_monotone.2.1 msg_good node0 hok
  exact ⟨C4_start_mpc_monotone.1 "fulldynamics" q0_sim (List.replicate 18 0), hok, hset,
    C4_start_mpc_monotone.2.2 _ _ hset⟩

/-- A malformed fulldynamics command: the riccati field has length 1 and
cannot be reshaped to nu × ndx = 12 × 36. -/
def msg_bad : Msg :=
  { u0 := List.replicate 12 1
    x0 := List.replicate 37 2
    riccati := [0]
    contact_states := []
    forces := []
    a0 := [] }

/-- C5 evaluated at the failing input: delivering a command whose riccati
field cannot be reshaped to 12 × 36 raises only AFTER `u0` and `x0` have
already been overwritten; the failed delivery leaves the buffer partially
applied (`u0`, `x0` changed; `K0`, `start_mpc` unchanged), contradicting the
claim that a malformed command is rejected before any stored command state is
modified. -/
theorem C5_partial_write_on_malformed :
    ¬ deliverOk msg_bad node0
      ∧ (listener_callback msg_bad node0).u0 = List.replicate 12 1
      ∧ (listener_callback msg_bad node0).u0 ≠ node0.u0
      ∧ (listener_callback msg_bad node0).x0 = List.replicate 37 2
      ∧ (listener_callback msg_bad node0).x0 ≠ node0.x0
      ∧ (listener_callback msg_bad node0).K0 = node0.K0
      ∧ (listener_callback msg_bad node0).start_mpc = false := by
  with_unfolding_all decide

set_option maxRecDepth 40000 in
/-- Counterexample to C6 as stated: delivering a (well-formed) fulldynamics
command overwrites the stored `u0` — the construction-time nominal
feedforward torque `u0_default` is not preserved by every command delivery,
because `self.u0`/`self.x0` double as the command buffer. -/
theorem C6_u0_overwritten_counterexample :
    (listener_callback msg_good node0).u0 ≠ node0.u0
      ∧ (listener_callback msg_good node0).x0 ≠ node0.x0
      ∧ node0.u0 = u0_default := by
  with_unfolding_all decide

/-- C6 amended: the PD gain matrices `Kp` and `Kd` are fixed at construction
and left unchanged by every timer tick and every command delivery; the
nominal feedforward torque `u0_default` and nominal reference state
`x0_default` are the construction-time values of the `u0`/`x0` fields, which
are left unchanged by every timer tick and by kinodynamics-mode deliveries,
but which double as the fulldynamics command buffer and are overwritten by
fulldynamics-mode command deliveries. -/
theorem C6_gains_fixed :
    (∀ (scale : ℚ → ℚ) (qp : List ℚ → List ℚ → List Bool → List ℚ → List ℚ → List ℚ)
        (step : List ℚ × List ℚ → List ℚ → List ℚ × List ℚ) (s : MpcSubscriber),
      (timer_callback scale qp step s).Kp = s.Kp
        ∧ (timer_callback scale qp step s).Kd = s.Kd
        ∧ (timer_callback scale qp step s).u0 = s.u0
        ∧ (timer_callback scale qp step s).x0 = s.x0)
      ∧ (∀ (msg : Msg) (s : MpcSubscriber),
          (listener_callback msg s).Kp = s.Kp ∧ (listener_callback msg s).Kd = s.Kd)
      ∧ (∀ (msg : Msg) (s : MpcSubscriber), s.parameter ≠ "fulldynamics" →
          (listener_callback msg s).u0 = s.u0 ∧ (listener_callback msg s).x0 = s.x0) := by
  refine ⟨fun scale qp step s => ⟨rfl, rfl, rfl, rfl⟩, ?_, ?_⟩
  · intro msg s
    unfold listener_callback
    by_cases hf : (s.parameter == "fulldynamics") = true
    · rw [if_pos hf]
      by_cases hr : msg.riccati.length = 432
      · rw [if_pos hr]; exact ⟨rfl, rfl⟩
      · rw [if_neg hr]; exact ⟨rfl, rfl⟩
    · rw [if_neg hf]
      by_cases hk : (s.parameter == "kinodynamics") = true
      · rw [if_pos hk]; exact ⟨rfl, rfl⟩
      · rw [if_neg hk]; exact ⟨rfl, rfl⟩
  · intro msg s hne
    unfold listener_callback
    rw [if_neg (by simpa using hne)]
    by_cases hk : (s.parameter == "kinodynamics") = true
    · rw [if_pos hk]; exact ⟨rfl, rfl⟩
    · rw [if_neg hk]; exact ⟨rfl, rfl⟩

/-- A node configured for the kinodynamics control law. -/
def nodeKino : MpcSubscriber := initNode "kinodynamics" q0_sim (List.replicate 18 0)

/-- Witness for C6 amended: the gain preservations evaluated at the concrete
nodes, with the kinodynamics-mode delivery hypothesis discharged there. -/
theorem C6_gains_fixed_witness :
    ((timer_callback sc1 qp0 step0 node0).Kp = node0.Kp
        ∧ (timer_callback sc1 qp0 step0 node0).Kd = node0.Kd
        ∧ (timer_callback sc1 qp0 step0 node0).u0 = node0.u0
        ∧ (timer_callback sc1 qp0 step0 node0).x0 = node0.x0)
      ∧ ((listener_callback msg_good node0).Kp = node0.Kp
        ∧ (listener_callback msg_good node0).Kd = node0.Kd)
      ∧ nodeKino.parameter ≠ "fulldynamics"
      ∧ ((listener_callback msg_good nodeKino).u0 = nodeKino.u0
        ∧ (listener_callback msg_good nodeKino).x0 = nodeKino.x0) := by
  have hne : nodeKino.parameter ≠ "fulldynamics" := by with_unfolding_all decide
  exact ⟨C6_gains_fixed.1 sc1 qp0 step0 node0, C6_gains_fixed.2.1 msg_good node0, hne,
    C6_gains_fixed.2.2 msg_good nodeKino hne⟩

/-- The rotational log-map difference between a quaternion and its double-cover
sign flip is zero: the relative quaternion has zero vector part, so the skew
part vanishes for every angle-rescaling factor. -/
theorem rotLogDiff_flip (scale : ℚ → ℚ) (qx qy qz qw : ℚ) :
    rotLogDiff scale ⟨-qx, -qy, -qz, -qw⟩ ⟨qx, qy, qz, qw⟩ = [0, 0, 0] := by
  simp only [rotLogDiff, qconj, qmul]
  ring_nf

/-- The manifold-aware difference between a state and the same state with the
base quaternion sign-flipped is the zero vector of dimension ndx = 36. -/
theorem spaceDifference_flip (scale : ℚ → ℚ) (a b c qx qy qz qw : ℚ)
    (joints vels : List ℚ) (hj : joints.length = 12) (hv : vels.length = 18) :
    spaceDifference scale ([a, b, c, -qx, -qy, -qz, -qw] ++ joints ++ vels)
        ([a, b, c, qx, qy, qz, qw] ++ joints ++ vels)
      = List.replicate 36 0 := by
  show vsub [a, b, c] [a, b, c]
      ++ rotLogDiff scale ⟨-qx, -qy, -qz, -qw⟩ ⟨qx, qy, qz, qw⟩
      ++ vsub (List.take 12 (joints ++ vels)) (List.take 12 (joints ++ vels))
      ++ vsub (List.drop 12 (joints ++ vels)) (List.drop 12 (joints ++ vels))
    = List.replicate 36 0
  rw [List.take_left' hj, List.drop_left' hj, rotLogDiff_flip,
    vsub_self_eq, vsub_self_eq, vsub_self_eq, hj, hv]
  rfl

/-- Helper: the torque of a tick in Tracking state under the fulldynamics
law, shared by the proofs below. -/
theorem tracking_torque_eq (scale : ℚ → ℚ)
    (qp : List ℚ → List ℚ → List Bool → List ℚ → List ℚ → List ℚ)
    (step : List ℚ × List ℚ → List ℚ → List ℚ × List ℚ)
    (s : MpcSubscriber) (hm : s.start_mpc = true) (hp : s.parameter = "fulldynamics") :
    (timer_callback scale qp step s).current_torque
      = vsub s.u0 (matVec s.K0 (spaceDifference scale (s.sim.1 ++ s.sim.2) s.x0)) := by
  simp [timer_callback, set_messages, compute_torque, hm, hp]

/-- C7. For a measured state and a reference `x0` that represent the same
physical state but whose base-quaternion components differ only by
double-cover sign (unit quaternion q versus −q), the state difference
`Δ(x_measured, x0)` used by the fulldynamics tracking law is the zero vector,
so the tracking tick outputs exactly `u0`; plain component-wise subtraction
of the two states is NOT zero there. -/
theorem C7_double_cover_zero_difference (scale : ℚ → ℚ)
    (qp : List ℚ → List ℚ → List Bool → List ℚ → List ℚ → List ℚ)
    (step : List ℚ × List ℚ → List ℚ → List ℚ × List ℚ)
    (a b c qx qy qz qw : ℚ) (joints vels : List ℚ) (s : MpcSubscriber)
    (hj : joints.length = 12) (hv : vels.length = 18)
    (hq : qx * qx + qy * qy + qz * qz + qw * qw = 1)
    (hu : s.u0.length = 12) (hK : s.K0.length = 12)
    (hm : s.start_mpc = true) (hp : s.parameter = "fulldynamics")
    (hx0 : s.x0 = [a, b, c, qx, qy, qz, qw] ++ joints ++ vels)
    (hsim : s.sim = ([a, b, c, -qx, -qy, -qz, -qw] ++ joints, vels)) :
    spaceDifference scale (s.sim.1 ++ s.sim.2) s.x0 = List.replicate 36 0
      ∧ (timer_callback scale qp step s).current_torque = s.u0
      ∧ vsub (s.sim.1 ++ s.sim.2) s.x0 ≠ List.replicate 37 0 := by
  have hxm : s.sim.1 ++ s.sim.2 = [a, b, c, -qx, -qy, -qz, -qw] ++ joints ++ vels := by
    rw [hsim]
  have hdiff : spaceDifference scale (s.sim.1 ++ s.sim.2) s.x0 = List.replicate 36 0 := by
    rw [hxm, hx0]
    exact spaceDifference_flip scale a b c qx qy qz qw joints vels hj hv
  refine ⟨hdiff, ?_, ?_⟩
  · have := tracking_torque_eq scale qp step s hm hp
    rw [this, hdiff, matVec_replicate_zero, hK, vsub_replicate_zero s.u0 12 (le_of_eq hu)]
  · rw [hxm, hx0]
    intro h
    have h3 : (-qx) - qx = 0 := by
      have := congrArg (fun l => l.getD 3 0) h
      simpa [vsub] using this
    have h4 : (-qy) - qy = 0 := by
      have := congrArg (fun l => l.getD 4 0) h
      simpa [vsub] using this
    have h5 : (-qz) - qz = 0 := by
      have := congrArg (fun l => l.getD 5 0) h
      simpa [vsub] using this
    have h6 : (-qw) - qw = 0 := by
      have := congrArg (fun l => l.getD 6 0) h
      simpa [vsub] using this
    have hqx : qx = 0 := by linarith
    have hqy : qy = 0 := by linarith
    have hqz : qz = 0 := by linarith
    have hqw : qw = 0 := by linarith
    rw [hqx, hqy, hqz, hqw] at hq
    norm_num at hq

/-- The 12 actuated joint positions of the source's initial configuration. -/
def jointsW : List ℚ :=
  [0.068, 0.785, -1.440,
   -0.068, 0.785, -1.440,
   0.068, 0.785, -1.440,
   -0.068, 0.785, -1.440]

/-- A Tracking-state node whose reference `x0` is the nominal state and whose
measured configuration carries the sign-flipped base quaternion. -/
def nodeFlip : MpcSubscriber :=
  { nodeTrack with
    x0 := [0, 0, 0.335, 0, 0, 0, 1] ++ jointsW ++ List.replicate 18 0
    sim := ([0, 0, 0.335, -0, -0, -0, -1] ++ jointsW, List.replicate 18 0) }

/-- Witness for C7: the double-cover hypotheses hold at the concrete
sign-flipped node and the conclusions evaluate there. -/
theorem C7_double_cover_zero_difference_witness :
    jointsW.length = 12 ∧ (List.replicate 18 (0 : ℚ)).length = 18
      ∧ ((0 : ℚ) * 0 + 0 * 0 + 0 * 0 + 1 * 1 = 1)
      ∧ nodeFlip.u0.length = 12 ∧ nodeFlip.K0.length = 12
      ∧ nodeFlip.start_mpc = true ∧ nodeFlip.parameter = "fulldynamics"
      ∧ nodeFlip.x0 = [0, 0, 0.335, 0, 0, 0, 1] ++ jointsW ++ List.replicate 18 0
      ∧ nodeFlip.sim = ([0, 0, 0.335, -0, -0, -0, -1] ++ jointsW, List.replicate 18 0)
      ∧ (spaceDifference sc1 (nodeFlip.sim.1 ++ nodeFlip.sim.2) nodeFlip.x0
            = List.replicate 36 0
        ∧ (timer_callback sc1 qp0 step0 nodeFlip).current_torque = nodeFlip.u0
        ∧ vsub (nodeFlip.sim.1 ++ nodeFlip.sim.2) nodeFlip.x0 ≠ List.replicate 37 0) := by
  refine ⟨rfl, rfl, by norm_num, rfl, rfl, rfl, rfl, rfl, rfl, ?_⟩
  exact C7_double_cover_zero_difference sc1 qp0 step0 0 0 0.335 0 0 0 1 jointsW
    (List.replicate 18 0) nodeFlip rfl rfl (by norm_num) rfl rfl rfl rfl rfl rfl

/-- The tracking node with its measured plant state moved to `q_alt`. -/
def nodeTrackAlt : MpcSubscriber := { nodeTrack with sim := (q_alt, List.replicate 18 0) }

set_option maxRecDepth 100000 in
/-- Counterexample to C8 as stated: under the fixed command held by the
freshly constructed node — whose riccati gain `K0` is the zero matrix — two
ticks at two different measured states produce the SAME torque output
(both equal `u0`), so "measured states differ implies torque outputs differ"
is false as a universal statement. -/
theorem C8_zero_gain_counterexample :
    nodeTrack.u0 = nodeTrackAlt.u0 ∧ nodeTrack.x0 = nodeTrackAlt.x0
      ∧ nodeTrack.K0 = nodeTrackAlt.K0
      ∧ nodeTrack.start_mpc = true ∧ nodeTrack.parameter = "fulldynamics"
      ∧ nodeTrack.sim ≠ nodeTrackAlt.sim
      ∧ (timer_callback sc1 qp0 step0 nodeTrack).current_torque
        = (timer_callback sc1 qp0 step0 nodeTrackAlt).current_torque := by
  with_unfolding_all decide

/-- A riccati gain matrix whose row i selects entry 6 + i of the state
difference (the i-th actuated joint configuration error). -/
def K0_sel : List (List ℚ) :=
  (List.range 12).map (fun i => (List.range 36).map (fun j => if j = 6 + i then 1 else 0))

/-- The tracking node holding a command with the non-zero gain `K0_sel`. -/
def nodeGain : MpcSubscriber := { nodeTrack with K0 := K0_sel }

/-- The same node with its measured plant state moved to `q_alt`. -/
def nodeGainAlt : MpcSubscriber := { nodeGain with sim := (q_alt, List.replicate 18 0) }

set_option maxRecDepth 100000 in
/-- C8 amended: holding one fixed FullDynamics command `(u0, x0, K0)`
unchanged across two ticks, there exist two distinct measured states whose
torque outputs differ — the torque is recomputed from the fresh measured
state each tick, as a cached output would coincide on every pair of
states. -/
theorem C8_fresh_state_recompute :
    nodeGain.u0 = nodeGainAlt.u0 ∧ nodeGain.x0 = nodeGainAlt.x0
      ∧ nodeGain.K0 = nodeGainAlt.K0
      ∧ nodeGain.start_mpc = true ∧ nodeGain.parameter = "fulldynamics"
      ∧ nodeGain.sim ≠ nodeGainAlt.sim
      ∧ (timer_callback sc1 qp0 step0 nodeGain).current_torque
        ≠ (timer_callback sc1 qp0 step0 nodeGainAlt).current_torque := by
  with_unfolding_all decide

/-- Helper: a command delivery never changes the configured mode string. -/
theorem listener_parameter_eq (msg : Msg) (s : MpcSubscriber) :
    (listener_callback msg s).parameter = s.parameter := by
  unfold listener_callback
  by_cases hf : (s.parameter == "fulldynamics") = true
  · rw [if_pos hf]
    by_cases hr : msg.riccati.length = 432
    · rw [if_pos hr]
    · rw [if_neg hr]
  · rw [if_neg hf]
    by_cases hk : (s.parameter == "kinodynamics") = true
    · rw [if_pos hk]
    · rw [if_neg hk]

/-- Helper: a delivery that completes (`deliverOk`) sets `start_mpc`. -/
theorem listener_start_mpc_of_ok (msg : Msg) (s : MpcSubscriber) (hok : deliverOk msg s) :
    (listener_callback msg s).start_mpc = true := by
  unfold listener_callback deliverOk at *
  by_cases hf : s.parameter = "fulldynamics"
  · rw [if_pos (by simp [hf]), if_pos (hok hf)]
  · rw [if_neg (by simp [hf])]
    by_cases hk : (s.parameter == "kinodynamics") = true
    · rw [if_pos hk]
    · rw [if_neg hk]

/-- Helper: the messages delivered along `e :: t` include those of `t`. -/
theorem mem_deliveries_cons (e : Event) (t : List Event) (msg : Msg)
    (h : msg ∈ deliveries t) : msg ∈ deliveries (e :: t) := by
  cases e with
  | tick scale qp step => simpa [deliveries, List.filterMap_cons] using h
  | deliver m => simp [deliveries, List.filterMap_cons]; right; simpa [deliveries] using h

/-- Helper: on a kinodynamics-mode node the synthesized torque is the PD law
while `start_mpc` is false and the QP output afterwards; neither branch
mentions the riccati gain `K0` or the log-map factor `scale`. -/
theorem compute_torque_kino (scale : ℚ → ℚ)
    (qp : List ℚ → List ℚ → List Bool → List ℚ → List ℚ → List ℚ)
    (s : MpcSubscriber) (q v : List ℚ) (hp : s.parameter = "kinodynamics") :
    compute_torque scale qp s q v
      = if s.start_mpc = false then
          vsub (vsub s.u0 (matVec s.Kp (vsub (q.drop 7) ((s.x0.take 19).drop 7))))
            (matVec s.Kd (v.drop 6))
        else qp q v s.contact_states s.a0 s.forces := by
  unfold compute_torque
  rw [hp]
  by_cases hm : s.start_mpc = false
  · rw [if_pos hm, if_pos hm]
  · rw [if_neg hm, if_neg hm, if_neg (by simp), if_pos (by simp)]

/-- C9. The mode string fixed at startup selects exactly one control path:
a fulldynamics node is built with `WB_solver = None` and no event ever
changes that; on a fulldynamics node the tick result does not depend on the
QP solver at all (`solve_qp` is never invoked); and on a kinodynamics node
the tick torque does not depend on the riccati gain `K0` or on the manifold
log-map factor (the fulldynamics feedback-law branch is never executed). -/
theorem C9_mode_isolation :
    (∀ (q_init v_init : List ℚ), (initNode "fulldynamics" q_init v_init).WB_solver = none)
      ∧ (∀ (scale : ℚ → ℚ) (qp : List ℚ → List ℚ → List Bool → List ℚ → List ℚ → List ℚ)
          (step : List ℚ × List ℚ → List ℚ → List ℚ × List ℚ) (s : MpcSubscriber),
          (timer_callback scale qp step s).WB_solver = s.WB_solver)
      ∧ (∀ (msg : Msg) (s : MpcSubscriber), (listener_callback msg s).WB_solver = s.WB_solver)
      ∧ (∀ (evs : List Event) (q_init v_init : List ℚ),
          (run evs (initNode "fulldynamics" q_init v_init)).WB_solver = none)
      ∧ (∀ (scale : ℚ → ℚ) (qp qp2 : List ℚ → List ℚ → List Bool → List ℚ → List ℚ → List ℚ)
          (step : List ℚ × List ℚ → List ℚ → List ℚ × List ℚ) (s : MpcSubscriber),
          s.parameter = "fulldynamics" →
            timer_callback scale qp step s = timer_callback scale qp2 step s)
      ∧ (∀ (scale scale2 : ℚ → ℚ) (qp : List ℚ → List ℚ → List Bool → List ℚ → List ℚ → List ℚ)
          (step : List ℚ × List ℚ → List ℚ → List ℚ × List ℚ) (s : MpcSubscriber)
          (K : List (List ℚ)), s.parameter = "kinodynamics" →
            (timer_callback scale qp step { s with K0 := K }).current_torque
              = (timer_callback scale2 qp step s).current_torque) := by
  have hlist : ∀ (msg : Msg) (s : MpcSubscriber),
      (listener_callback msg s).WB_solver = s.WB_solver := by
    intro msg s
    unfold listener_callback
    by_cases hf : (s.parameter == "fulldynamics") = true
    · rw [if_pos hf]
      by_cases hr : msg.riccati.length = 432
      · rw [if_pos hr]
      · rw [if_neg hr]
    · rw [if_neg hf]
      by_cases hk : (s.parameter == "kinodynamics") = true
      · rw [if_pos hk]
      · rw [if_neg hk]
  refine ⟨fun qi vi => rfl, fun scale qp step s => rfl, hlist, ?_, ?_, ?_⟩
  · intro evs qi vi
    have hrun : ∀ (l : List Event) (s : MpcSubscriber), s.WB_solver = none →
        (run l s).WB_solver = none := by
      intro l
      induction l with
      | nil => intro s h; exact h
      | cons e t ih =>
        intro s h
        refine ih (applyEvent e s) ?_
        cases e with
        | tick scale qp step => exact h
        | deliver msg => rw [applyEvent, hlist]; exact h
    exact hrun evs (initNode "fulldynamics" qi vi) rfl
  · intro scale qp qp2 step s hp
    have hct : compute_torque scale qp s s.sim.1 s.sim.2
        = compute_torque scale qp2 s s.sim.1 s.sim.2 := by
      unfold compute_torque
      by_cases hm : s.start_mpc = false
      · rw [if_pos hm, if_pos hm]
      · rw [if_neg hm, if_neg hm, if_pos (by simp [hp]), if_pos (by simp [hp])]
    simp only [timer_callback]
    rw [hct]
  · intro scale scale2 qp step s K hp
    show compute_torque scale qp { s with K0 := K } s.sim.1 s.sim.2
      = compute_torque scale2 qp s s.sim.1 s.sim.2
    rw [compute_torque_kino scale qp { s with K0 := K } s.sim.1 s.sim.2 hp,
      compute_torque_kino scale2 qp s s.sim.1 s.sim.2 hp]

/-- An alternative angle-rescaling factor, for the independence witnesses. -/
def scAlt : ℚ → ℚ := fun c => c + 7

/-- An alternative QP solver stub, for the independence witnesses. -/
def qpOne : List ℚ → List ℚ → List Bool → List ℚ → List ℚ → List ℚ :=
  fun _ _ _ _ _ => List.replicate 12 1

/-- A kinodynamics-mode node in Tracking state. -/
def nodeKinoTrack : MpcSubscriber := { nodeKino with start_mpc := true }

/-- Witness for C9: the isolation statements evaluated at concrete
fulldynamics and kinodynamics nodes, events and collaborator stubs. -/
theorem C9_mode_isolation_witness :
    (initNode "fulldynamics" q0_sim (List.replicate 18 0)).WB_solver = none
      ∧ (run [Event.tick sc1 qp0 step0, Event.deliver msg_good]
          (initNode "fulldynamics" q0_sim (List.replicate 18 0))).WB_solver = none
      ∧ nodeTrack.parameter = "fulldynamics"
      ∧ timer_callback sc1 qp0 step0 nodeTrack = timer_callback sc1 qpOne step0 nodeTrack
      ∧ nodeKinoTrack.parameter = "kinodynamics"
      ∧ (timer_callback sc1 qp0 step0 { nodeKinoTrack with K0 := K0_sel }).current_torque
        = (timer_callback scAlt qp0 step0 nodeKinoTrack).current_torque :=
  ⟨C9_mode_isolation.1 q0_sim (List.replicate 18 0),
   C9_mode_isolation.2.2.2.1 [Event.tick sc1 qp0 step0, Event.deliver msg_good]
     q0_sim (List.replicate 18 0),
   rfl,
   C9_mode_isolation.2.2.2.2.1 sc1 qp0 qpOne step0 nodeTrack rfl,
   rfl,
   C9_mode_isolation.2.2.2.2.2 sc1 scAlt qp0 step0 nodeKinoTrack K0_sel rfl⟩

/-- C10. Implicit invariant: along any run in which every delivered command
is well-formed (in fulldynamics mode its riccati field reshapes to 12 × 36,
so `listener_callback` runs to completion), whenever the node is still in
Stabilizing state (`start_mpc` false) the stored `u0` and `x0` are their
construction-time values — the gravity-compensating torque and the initial
equilibrium state — even though the same fields double as the fulldynamics
command buffer: every completed delivery sets `start_mpc` before any tick
can read the overwritten values. -/
theorem C10_stabilizing_reads_defaults (p : String) (q_init v_init : List ℚ)
    (evs : List Event)
    (hwf : ∀ msg ∈ deliveries evs, p = "fulldynamics" → msg.riccati.length = 432)
    (hm : (run evs (initNode p q_init v_init)).start_mpc = false) :
    (run evs (initNode p q_init v_init)).u0 = u0_default
      ∧ (run evs (initNode p q_init v_init)).x0 = q_init ++ v_init := by
  have main : ∀ (l : List Event) (s : MpcSubscriber), s.parameter = p →
      (∀ msg ∈ deliveries l, p = "fulldynamics" → msg.riccati.length = 432) →
      (s.start_mpc = false → s.u0 = u0_default ∧ s.x0 = q_init ++ v_init) →
      (run l s).start_mpc = false →
        (run l s).u0 = u0_default ∧ (run l s).x0 = q_init ++ v_init := by
    intro l
    induction l with
    | nil => intro s hparam hwf2 hinv hmf; exact hinv hmf
    | cons e t ih =>
      intro s hparam hwf2 hinv hmf
      refine ih (applyEvent e s) ?_ ?_ ?_ (by simpa [run] using hmf)
      · cases e with
        | tick scale qp step => exact hparam
        | deliver msg => rw [applyEvent, listener_parameter_eq]; exact hparam
      · intro msg hmem hfd
        exact hwf2 msg (mem_deliveries_cons e t msg hmem) hfd
      · cases e with
        | tick scale qp step => exact fun h => hinv h
        | deliver msg =>
          intro hfalse
          have hok : deliverOk msg s := by
            intro hfd
            refine hwf2 msg ?_ (hparam ▸ hfd)
            simp [deliveries, List.filterMap_cons]
          have := listener_start_mpc_of_ok msg s hok
          rw [applyEvent] at hfalse
          rw [this] at hfalse
          exact absurd hfalse (by simp)
  exact main evs (initNode p q_init v_init) rfl hwf (fun _ => ⟨rfl, rfl⟩) hm

/-- Witness for C10: a concrete tick-only run from the initial node is still
in Stabilizing state and reads back the construction-time `u0` and `x0`. -/
theorem C10_stabilizing_reads_defaults_witness :
    (∀ msg ∈ deliveries [Event.tick sc1 qp0 step0, Event.tick sc1 qp0 step_alt],
        "fulldynamics" = "fulldynamics" → msg.riccati.length = 432)
      ∧ (run [Event.tick sc1 qp0 step0, Event.tick sc1 qp0 step_alt]
          (initNode "fulldynamics" q0_sim (List.replicate 18 0))).start_mpc = false
      ∧ (run [Event.tick sc1 qp0 step0, Event.tick sc1 qp0 step_alt]
          (initNode "fulldynamics" q0_sim (List.replicate 18 0))).u0 = u0_default
      ∧ (run [Event.tick sc1 qp0 step0, Event.tick sc1 qp0 step_alt]
          (initNode "fulldynamics" q0_sim (List.replicate 18 0))).x0
        = q0_sim ++ List.replicate 18 0 := by
  have hwf : ∀ msg ∈ deliveries [Event.tick sc1 qp0 step0, Event.tick sc1 qp0 step_alt],
      "fulldynamics" = "fulldynamics" → msg.riccati.length = 432 := by
    intro msg hmem
    simp [deliveries, List.filterMap_cons] at hmem
  have hm : (run [Event.tick sc1 qp0 step0, Event.tick sc1 qp0 step_alt]
      (initNode "fulldynamics" q0_sim (List.replicate 18 0))).start_mpc = false := rfl
  have h := C10_stabilizing_reads_defaults "fulldynamics" q0_sim (List.replicate 18 0)
    [Event.tick sc1 qp0 step0, Event.tick sc1 qp0 step_alt] hwf hm
  exact ⟨hwf, hm, h.1, h.2⟩
